import Mathlib

/-!
# The Hebei EPG provider

A shallow embedding of `internal/provider/providers/hebei/hebei.go`.

The provider is glue code around collaborators that live outside the file:
`encoding/json`, `time`, the HTTP transport of `BaseProvider`, the logger and
the error constructors of `pkg/errors`.  Those collaborators are the fields of
`Env`; the provider's own control flow (`ParseEPGResponse`, `FetchEPG`,
`HealthCheck`) is translated statement by statement on top of them.  Effects
(the POST, the clock, the warnings) are explicit state passing over a world
type `σ`.
-/

set_option linter.unusedVariables false
set_option maxRecDepth 100000

namespace Hebei

/-! ## Values of the surrounding packages -/

/-- Raw bytes (`[]byte`). -/
abbrev Bytes := List UInt8

/-- The `Message` of Go's `time.ParseError`, kept structurally: empty,
`": extra text: " + quote(rest)`, or `": " + what + " out of range"`. -/
inductive ParseMessage where
  | empty
  | extraText (rest : String)
  | outOfRange (what : String)
  deriving DecidableEq, Repr

/-- Go's `time.ParseError`. -/
structure ParseError where
  Layout : String
  Value : String
  LayoutElem : String
  ValueElem : String
  Message : ParseMessage
  deriving DecidableEq, Repr

/-- Error values.  `lib` is an error produced outside this repository
(transport, `encoding/json`, `time.LoadLocation`), `timeParse` is a
`*time.ParseError`, and the remaining constructors are the constructors of
`pkg/errors` that `hebei.go` calls, each holding the arguments it was called
with. -/
inductive Error where
  | lib (text : String)
  | timeParse (e : ParseError)
  | ProviderParseFailed (providerID : String) (err : Error)
  | ProviderAPIError (providerID : String) (code : String) (message : String)
  | ErrProgramLoadLocation (channelID : String) (err : Error)
  | ErrProgramDateRangeProcess (err : Error) (channelID : String) (date : String)
  deriving DecidableEq, Repr

/-- A `time.Time`: the instant (`unix` seconds and `nsec` nanoseconds since the
epoch) and `offset`, the seconds east of UTC that the value's location gives
at that instant. -/
structure Time where
  unix : Int
  nsec : Nat
  offset : Int
  deriving DecidableEq, Repr

/-- Go's `Time.Before`: strict order of the instants. -/
def Time.Before (t u : Time) : Prop :=
  t.unix < u.unix ∨ (t.unix = u.unix ∧ t.nsec < u.nsec)

instance (t u : Time) : Decidable (t.Before u) := by
  unfold Time.Before; infer_instance

/-- What `Location.lookup` reports for an instant: the zone offset in force
and the half-open interval of instants on which that zone applies. -/
structure ZoneSpan where
  offset : Int
  start : Int
  stop : Int

/-- A `*time.Location`, represented by its name and its `lookup` method. -/
structure Location where
  name : String
  lookup : Int → ZoneSpan

/-- The struct `model.Program`. -/
structure Program where
  ChannelID : String
  Title : String
  StartTime : Time
  EndTime : Time
  OriginalTimezone : String
  ProviderID : String
  deriving DecidableEq, Repr

/-- The struct `model.ProviderChannel`. -/
structure ProviderChannel where
  Name : String
  ID : String
  deriving DecidableEq, Repr

/-- The struct `model.ProviderHealth`. -/
structure ProviderHealth where
  Healthy : Bool
  Message : String
  deriving DecidableEq, Repr

/-- One element of `ProgramResponse.Data[date]`. -/
structure Entry where
  StartDateTime : String
  EndDateTime : String
  Name : String
  deriving DecidableEq, Repr

/-- The struct `ProgramResponse`.  The Go map `Data` is an association list;
`mapIndex` reads it the way a map index expression does. -/
structure ProgramResponse where
  State : Int
  Message : String
  Success : Bool
  Data : List (String × List Entry)
  deriving DecidableEq, Repr

/-- A Go map index expression `m[k]` on a `map[string][]T`: the stored slice,
or the zero value (a slice of length 0) when the key is absent. -/
def mapIndex {α : Type} (m : List (String × List α)) (k : String) : List α :=
  (m.lookup k).getD []

/-- A Go result pair `([]*model.Program, error)`: `none` in the first
component is the nil slice, `none` in the second the nil error. -/
abbrev Result := Option (List Program) × Option Error

/-! ## The environment of the provider -/

/-- Everything `hebei.go` calls but does not define.  `σ` is the state of the
outside world (network, clock, log). -/
structure Env (σ : Type) where
  /-- The value of `p.GetID()` of the embedded `BaseProvider`. -/
  GetID : String
  /-- The constant `provider.UTC8Location`. -/
  UTC8Location : String
  /-- The constant `provider.HeaderUserAgent`. -/
  HeaderUserAgent : String
  /-- The constant `provider.DefaultUserAgent`. -/
  DefaultUserAgent : String
  /-- The call `json.Unmarshal(data, &resp)` for `resp` a `ProgramResponse`. -/
  Unmarshal : Bytes → Except Error ProgramResponse
  /-- The text `encoding/json` writes for a `map[string]string`; encoding such
  a map has no failing case. -/
  MarshalText : List (String × String) → Bytes
  /-- The function `time.LoadLocation`. -/
  LoadLocation : String → Except Error Location
  /-- The call `time.ParseInLocation(layout, value, loc)`. -/
  ParseInLocation : String → String → Location → Except Error Time
  /-- The call `t.Format(layout)`. -/
  Format : Time → String → String
  /-- The call `time.Now()`. -/
  Now : σ → Time × σ
  /-- The call `p.PostWithHeaders(ctx, path, body, headers)` of `BaseProvider`. -/
  PostWithHeaders : σ → String → Bytes → List (String × String) → Except Error Bytes × σ
  /-- The call `logger.Warn(msg)`. -/
  Warn : σ → String → σ
  /-- The `Error()` method of an error value. -/
  ErrorString : Error → String

/-! ## hebei.go -/

/-- The package variable `channelList`. -/
def channelList : List ProviderChannel :=
  [ ⟨"河北卫视", "462"⟩,
    ⟨"河北经济生活", "114"⟩,
    ⟨"河北三农", "118"⟩,
    ⟨"河北都市", "62"⟩,
    ⟨"河北影视剧", "334"⟩,
    ⟨"河北少儿科教", "70"⟩,
    ⟨"河北文旅公共", "338"⟩ ]

/-- The constant `tenantID`. -/
def tenantID : String := "0d91d6cfb98f5b206ac1e752757fc5a9"

/-- The layout both timestamps of an entry are parsed with. -/
def layoutDateTime : String := "2006-01-02 15:04:05"

/-- The layout `FetchEPG` formats the requested day with. -/
def layoutDate : String := "2006-01-02"

/-- The path `FetchEPG` posts to. -/
def findNoPagePath : String := "/spidercrms/api/live/liveShowSet/findNoPage"

/-- The verb `%d` of `fmt.Sprintf` on an `int`. -/
def sprintfD (n : Int) : String :=
  match n with
  | Int.ofNat k => Nat.repr k
  | Int.negSucc k => "-" ++ Nat.repr (k + 1)

/-- The verb `%v` of `fmt.Sprintf("FetchEPG failed: %v", err)`. -/
def sprintfFetchFailed {σ : Type} (env : Env σ) (err : Error) : String :=
  "FetchEPG failed: " ++ env.ErrorString err

/-- The body of the `for _, program := range resp.Data[date]` loop of
`ParseEPGResponse` (lines 144-166), run over the remaining entries with the
slice `result` built so far and the world `w`. -/
def parseLoop {σ : Type} (env : Env σ) (location : Location) (channelID date : String) :
    List Entry → List Program → σ → List Program × σ
  | [], result, w => (result, w)
  | program :: rest, result, w =>
    match env.ParseInLocation layoutDateTime program.StartDateTime location with
    | .error err =>
      parseLoop env location channelID date rest result
        (env.Warn w (env.ErrorString (.ErrProgramDateRangeProcess err channelID date)))
    | .ok startTime =>
      match env.ParseInLocation layoutDateTime program.EndDateTime location with
      | .error err =>
        parseLoop env location channelID date rest result
          (env.Warn w (env.ErrorString (.ErrProgramDateRangeProcess err channelID date)))
      | .ok endTime =>
        parseLoop env location channelID date rest
          (result ++ [{ ChannelID := channelID
                        Title := program.Name
                        StartTime := startTime
                        EndTime := endTime
                        OriginalTimezone := env.UTC8Location
                        ProviderID := env.GetID }]) w

/-- The method `HebeiProvider.ParseEPGResponse` (lines 126-168). -/
def ParseEPGResponse {σ : Type} (env : Env σ) (w : σ) (data : Bytes)
    (providerChannelID channelID date : String) : Result × σ :=
  match env.Unmarshal data with
  | .error err => ((none, some (.ProviderParseFailed env.GetID err)), w)
  | .ok resp =>
    let result : List Program := []
    if resp.State ≠ 200 then
      ((none, some (.ProviderAPIError env.GetID (sprintfD resp.State) resp.Message)), w)
    else
      match env.LoadLocation env.UTC8Location with
      | .error err =>
        ((none, some err), env.Warn w (env.ErrorString (.ErrProgramLoadLocation channelID err)))
      | .ok location =>
        let out := parseLoop env location channelID date (mapIndex resp.Data date) result w
        ((some out.1, none), out.2)

/-- The map literal `headers` of `FetchEPG`. -/
def requestHeaders {σ : Type} (env : Env σ) : List (String × String) :=
  [(env.HeaderUserAgent, env.DefaultUserAgent), ("Tenantid", tenantID)]

/-- The map literal `reqBody` of `FetchEPG`, keys in the order the encoder
writes them (sorted). -/
def reqBody (formatDate providerChannelID : String) : List (String × String) :=
  [("day", formatDate), ("dayEnd", formatDate), ("sourceId", providerChannelID),
   ("tenantId", tenantID)]

/-- The call `json.Marshal(reqBody)` in its `(value, error)` shape. -/
def jsonMarshal {σ : Type} (env : Env σ) (m : List (String × String)) : Except Error Bytes :=
  .ok (env.MarshalText m)

/-- The method `HebeiProvider.FetchEPG` (lines 92-120). -/
def FetchEPG {σ : Type} (env : Env σ) (w : σ) (providerChannelID channelID : String)
    (date : Time) : Result × σ :=
  let headers := requestHeaders env
  let formatDate := env.Format date layoutDate
  match jsonMarshal env (reqBody formatDate providerChannelID) with
  | .error err => ((none, some err), w)
  | .ok reqBodyJSON =>
    match env.PostWithHeaders w findNoPagePath reqBodyJSON headers with
    | (.error err, w1) => ((none, some err), w1)
    | (.ok res, w1) =>
      match ParseEPGResponse env w1 res providerChannelID channelID formatDate with
      | ((programData, none), w2) => ((programData, none), w2)
      | ((_, some err), w2) => ((none, some err), w2)

/-- The method `HebeiProvider.HealthCheck` (lines 76-90).  `none` stands for
the run-time panic of an index expression that is out of range. -/
def HealthCheck {σ : Type} (env : Env σ) (w : σ) : Option (ProviderHealth × σ) :=
  match channelList[0]? with
  | none => none
  | some ch =>
    let now := env.Now w
    match FetchEPG env now.2 ch.ID ch.Name now.1 with
    | ((_, some err), w1) => some ({ Healthy := false, Message := sprintfFetchFailed env err }, w1)
    | ((_, none), w1) => some ({ Healthy := true, Message := "OK" }, w1)

/-! ## The time package on the two layouts of this file

A model of what Go's `time` package (Go 1.17 or later) does for the layouts
`"2006-01-02 15:04:05"` and `"2006-01-02"`.  The general theorems below hold
for every environment; this model is the environment of the worked examples.
Strings are read as lists of characters: every character the parser accepts
is ASCII, so reading bytes or characters gives the same outcome. -/

namespace GoTime

/-- Go's `isDigit(s, i)`. -/
def isDigit (s : List Char) (i : Nat) : Bool :=
  match s[i]? with
  | some c => decide (48 ≤ c.toNat ∧ c.toNat ≤ 57)
  | none => false

/-- The numeric value of the digit at index `i`, 0 when out of range. -/
def digitAt (s : List Char) (i : Nat) : Nat :=
  match s[i]? with
  | some c => c.toNat - 48
  | none => 0

/-- Go's `getnum(s, fixed)`: a one- or two-digit number, two digits required
when `fixed`; `none` is `errBad`. -/
def getnum (s : List Char) (fixed : Bool) : Option (Nat × List Char) :=
  if !isDigit s 0 then none
  else if !isDigit s 1 then
    if fixed then none else some (digitAt s 0, s.drop 1)
  else some (digitAt s 0 * 10 + digitAt s 1, s.drop 2)

/-- Go's `skip(value, lit)` for a one-byte literal other than a space: the
rest of the value after the literal, or the value where matching stopped. -/
def skipByte (value : List Char) (lit : Char) : Except (List Char) (List Char) :=
  match value with
  | c :: rest => if c = lit then .ok rest else .error value
  | [] => .error value

/-- Go's `skip(value, " ")`: a value that starts with something other than a
space is rejected, otherwise all leading spaces are cut. -/
def skipSpace (value : List Char) : Except (List Char) (List Char) :=
  match value with
  | c :: _ => if c ≠ ' ' then .error value else .ok (value.dropWhile (fun x => x = ' '))
  | [] => .ok []

/-- Go's `isLeap`. -/
def isLeap (year : Nat) : Bool :=
  year % 4 = 0 && (year % 100 ≠ 0 || year % 400 = 0)

/-- Go's `daysIn(month, year)`. -/
def daysIn (month year : Nat) : Nat :=
  if month = 2 then (if isLeap year then 29 else 28)
  else if month = 4 ∨ month = 6 ∨ month = 9 ∨ month = 11 then 30
  else 31

/-- Days of a common year before the first day of `month` (Go's `daysBefore`). -/
def daysBefore (month : Nat) : Nat :=
  ([0, 31, 59, 90, 120, 151, 181, 212, 243, 273, 304, 334].getD (month - 1) 0)

/-- Days from 1 January of year 0 to 1 January of `year`. -/
def daysBeforeYear (year : Nat) : Nat :=
  365 * year + (year + 3) / 4 - (year + 99) / 100 + (year + 399) / 400

/-- Seconds since the Unix epoch of a civil date and time read as UTC. -/
def civilToUnix (year month day hour min sec : Nat) : Int :=
  let leapDay : Nat := if isLeap year ∧ 2 < month then 1 else 0
  let days : Int := (daysBeforeYear year + daysBefore month + leapDay + (day - 1) : Nat) - 719528
  days * 86400 + (hour * 3600 + min * 60 + sec : Nat)

/-- Go's `time.Date` for fields that are already in range: the civil time is
first read as UTC, then moved by the zone offset the location reports, looked
up a second time when the first guess falls outside the reported zone. -/
def Date (year month day hour min sec nsec : Nat) (loc : Location) : Time :=
  let unix := civilToUnix year month day hour min sec
  let z := loc.lookup unix
  let offset : Int :=
    if z.offset ≠ 0 then
      let utc := unix - z.offset
      if utc < z.start ∨ utc ≥ z.stop then (loc.lookup utc).offset else z.offset
    else 0
  { unix := unix - offset, nsec := nsec, offset := (loc.lookup (unix - offset)).offset }

/-- The fraction Go reads after the seconds when the layout has none: a comma
or period followed by digits; the first nine digits count, as nanoseconds. -/
def fraction (value : List Char) : Nat × List Char :=
  match value with
  | c :: rest =>
    if (c = '.' ∨ c = ',') ∧ isDigit rest 0 then
      let digits := rest.takeWhile (fun x => decide (48 ≤ x.toNat ∧ x.toNat ≤ 57))
      let kept := digits.take 9
      (kept.foldl (fun acc d => acc * 10 + (d.toNat - 48)) 0 * 10 ^ (9 - kept.length),
       rest.drop digits.length)
    else (0, value)
  | [] => (0, value)

/-- A `*time.ParseError` for the layout of this file. -/
def parseError (avalue : String) (layoutElem : String) (valueElem : List Char)
    (msg : ParseMessage) : ParseError :=
  { Layout := layoutDateTime, Value := avalue, LayoutElem := layoutElem,
    ValueElem := String.mk valueElem, Message := msg }

/-- Go's `time.ParseInLocation("2006-01-02 15:04:05", avalue, loc)`, chunk by
chunk: a four-digit year, then month, day, hour, minute and second, each after
its literal, then an optional fraction, then nothing more. -/
def parseDateTime (avalue : String) (loc : Location) : Except ParseError Time :=
  let value := avalue.toList
  -- "2006"
  if value.length < 4 ∨ !isDigit value 0 ∨ !isDigit value 1 ∨ !isDigit value 2
      ∨ !isDigit value 3 then
    .error (parseError avalue "2006" value .empty)
  else
  let year := digitAt value 0 * 1000 + digitAt value 1 * 100 + digitAt value 2 * 10 + digitAt value 3
  -- "-01"
  match skipByte (value.drop 4) '-' with
  | .error at_ => .error (parseError avalue "-" at_ .empty)
  | .ok v1 =>
  match getnum v1 true with
  | none => .error (parseError avalue "01" v1 .empty)
  | some (month, v2) =>
  if month = 0 ∨ 12 < month then .error (parseError avalue "01" v2 (.outOfRange "month"))
  else
  -- "-02"
  match skipByte v2 '-' with
  | .error at_ => .error (parseError avalue "-" at_ .empty)
  | .ok v3 =>
  match getnum v3 true with
  | none => .error (parseError avalue "02" v3 .empty)
  | some (day, v4) =>
  -- " 15"
  match skipSpace v4 with
  | .error at_ => .error (parseError avalue " " at_ .empty)
  | .ok v5 =>
  match getnum v5 false with
  | none => .error (parseError avalue "15" v5 .empty)
  | some (hour, v6) =>
  if 24 ≤ hour then .error (parseError avalue "15" v6 (.outOfRange "hour"))
  else
  -- ":04"
  match skipByte v6 ':' with
  | .error at_ => .error (parseError avalue ":" at_ .empty)
  | .ok v7 =>
  match getnum v7 true with
  | none => .error (parseError avalue "04" v7 .empty)
  | some (min, v8) =>
  if 60 ≤ min then .error (parseError avalue "04" v8 (.outOfRange "minute"))
  else
  -- ":05"
  match skipByte v8 ':' with
  | .error at_ => .error (parseError avalue ":" at_ .empty)
  | .ok v9 =>
  match getnum v9 true with
  | none => .error (parseError avalue "05" v9 .empty)
  | some (sec, v10) =>
  if 60 ≤ sec then .error (parseError avalue "05" v10 (.outOfRange "second"))
  else
  let frac := fraction v10
  -- end of layout
  if frac.2 ≠ [] then .error (parseError avalue "" frac.2 (.extraText (String.mk frac.2)))
  else if day < 1 ∨ daysIn month year < day then
    .error (parseError avalue "" [] (.outOfRange "day"))
  else .ok (Date year month day hour min sec frac.1 loc)

/-- Civil year, month and day of a day number counted from the Unix epoch. -/
def civilFromDays (days : Int) : Int × Nat × Nat :=
  let z := days + 719468
  let era := z / 146097
  let doe := (z - era * 146097).toNat
  let yoe := (doe - doe / 1460 + doe / 36524 - doe / 146096) / 365
  let doy := doe - (365 * yoe + yoe / 4 - yoe / 100)
  let mp := (5 * doy + 2) / 153
  let d := doy - (153 * mp + 2) / 5 + 1
  let m := if mp < 10 then mp + 3 else mp - 9
  let y : Int := (yoe : Int) + era * 400
  (if m ≤ 2 then y + 1 else y, m, d)

/-- Decimal text of `n`, zero-padded on the left to `width` digits. -/
def pad (width n : Nat) : String :=
  let s := Nat.repr n
  String.mk (List.replicate (width - s.length) '0') ++ s

/-- Go's `t.Format("2006-01-02")`: the civil date of the instant in the
value's zone, year in at least four digits with a sign when negative. -/
def formatDate (t : Time) : String :=
  let c := civilFromDays ((t.unix + t.offset) / 86400)
  (if c.1 < 0 then "-" else "") ++ pad 4 c.1.natAbs ++ "-" ++ pad 2 c.2.1 ++ "-" ++ pad 2 c.2.2

end GoTime

/-! ## The batch entry point -/

/-- Modelled from the spec: the struct `model.ChannelMappingInfo`, whose
declaration is not part of the source.  Section 3: it associates a
provider-local channel id with the canonical channel id the caller wants the
results tagged with. -/
structure ChannelMappingInfo where
  ProviderChannelID : String
  ChannelID : String
  deriving DecidableEq, Repr

/-- Modelled from the spec: the text a failed channel is recorded with, naming
the channel and the error.  Section 7: the caller has a way to inspect which
channels failed and why. -/
def BaseProvider.failureText {σ : Type} (env : Env σ) (m : ChannelMappingInfo)
    (err : Error) : String :=
  m.ProviderChannelID ++ ": " ++ env.ErrorString err

/-- Modelled from the spec: the loop of `BaseProvider.FetchEPGBatch`, the shared
base implementation that `hebei.go` delegates to and that is not part of the
source.  Section 4.3: one `FetchEPG` per mapping entry; a failure on one
channel does not abort the batch, it is recorded (here with `logger.Warn`, the
policy "returning results only and logging errors") and the loop goes on; the
programs of the channels that succeeded are collected in `all`.  Channels are
visited in the order of the mapping list. -/
def BaseProvider.batchLoop {σ : Type} (env : Env σ)
    (fetch : σ → String → String → Time → Result × σ) (date : Time) :
    List ChannelMappingInfo → List Program → σ → List Program × σ
  | [], all, w => (all, w)
  | m :: rest, all, w =>
    match fetch w m.ProviderChannelID m.ChannelID date with
    | ((_, some err), w1) =>
      BaseProvider.batchLoop env fetch date rest all
        (env.Warn w1 (BaseProvider.failureText env m err))
    | ((programs, none), w1) =>
      BaseProvider.batchLoop env fetch date rest (all ++ programs.getD []) w1

/-- Modelled from the spec: `BaseProvider.FetchEPGBatch(ctx, p, mappings, date)`,
not part of the source; `fetch` is the `FetchEPG` method of the provider `p`
it is handed.  The result has the Go shape `([]*model.Program, error)` of
section 4.1: the union of the successfully parsed programs and, under the
logging policy, a nil error. -/
def BaseProvider.FetchEPGBatch {σ : Type} (env : Env σ)
    (fetch : σ → String → String → Time → Result × σ)
    (w : σ) (channelMappingInfo : List ChannelMappingInfo) (date : Time) : Result × σ :=
  let out := BaseProvider.batchLoop env fetch date channelMappingInfo [] w
  ((some out.1, none), out.2)

/-- The method `HebeiProvider.FetchEPGBatch` (lines 122-124). -/
def FetchEPGBatch {σ : Type} (env : Env σ) (w : σ)
    (channelMappingInfo : List ChannelMappingInfo) (date : Time) : Result × σ :=
  BaseProvider.FetchEPGBatch env (FetchEPG env) w channelMappingInfo date

/-! ## Reference descriptions

The functions below follow the wording of the specification, not the code;
the theorems compare the code with them. -/

/-- The Program the specification asks for an entry: present when both of
its timestamps parse in the source timezone, absent otherwise. -/
def entryProgram {σ : Type} (env : Env σ) (loc : Location) (channelID : String)
    (e : Entry) : Option Program :=
  match env.ParseInLocation layoutDateTime e.StartDateTime loc,
        env.ParseInLocation layoutDateTime e.EndDateTime loc with
  | .ok s, .ok t =>
    some { ChannelID := channelID, Title := e.Name, StartTime := s, EndTime := t,
           OriginalTimezone := env.UTC8Location, ProviderID := env.GetID }
  | _, _ => none

/-- An entry both of whose timestamps parse. -/
def entryParses {σ : Type} (env : Env σ) (loc : Location) (e : Entry) : Prop :=
  (∃ s, env.ParseInLocation layoutDateTime e.StartDateTime loc = .ok s) ∧
  (∃ t, env.ParseInLocation layoutDateTime e.EndDateTime loc = .ok t)

/-- The world after the run `r` of the mapping entry `m`: the world the run
left, with the failure recorded when the run failed. -/
def afterRun {σ : Type} (env : Env σ) (m : ChannelMappingInfo) (r : Result × σ) : σ :=
  match r.1.2 with
  | none => r.2
  | some err => env.Warn r.2 (BaseProvider.failureText env m err)

/-- The outcomes of one `FetchEPG` per mapping entry, in the order of the
list, each run starting in the world the previous one left. -/
def batchRuns {σ : Type} (env : Env σ) (date : Time) :
    List ChannelMappingInfo → σ → List Result
  | [], _ => []
  | m :: rest, w =>
    let r := FetchEPG env w m.ProviderChannelID m.ChannelID date
    r.1 :: batchRuns env date rest (afterRun env m r)

/-- The programs of a run that succeeded (nil error); nothing for a failed run. -/
def succeededPrograms (r : Result) : List Program :=
  match r with
  | (programs, none) => programs.getD []
  | (_, some _) => []

/-! ## A concrete environment for the worked examples -/

namespace Sample

deriving instance DecidableEq for Except

/-- The world of the examples: the requests sent and the warnings logged. -/
structure World where
  sent : List (String × Bytes × List (String × String))
  log : List String
  deriving DecidableEq, Repr

/-- The empty world. -/
def w0 : World := { sent := [], log := [] }

/-- The UTF-8 bytes of a text. -/
def bytesOf (s : String) : Bytes := s.toUTF8.data.toList

/-- The zone rule the tz database gives `Asia/Shanghai` for every instant
since September 1991: UTC+8 throughout. -/
def shanghai : Location :=
  { name := "Asia/Shanghai"
    lookup := fun _ => { offset := 28800, start := -9223372036854775808,
                         stop := 9223372036854775807 } }

/-- A response with three entries for 2024-01-10, the second with an
unparsable start, and one entry under another date. -/
def docThree : Bytes := bytesOf
  ("\x7b\"state\":200,\"message\":\"ok\",\"success\":true,\"Data\":\x7b" ++
   "\"2024-01-10\":[" ++
   "\x7b\"startDateTime\":\"2024-01-10 18:00:00\",\"endDateTime\":\"2024-01-10 19:00:00\",\"Name\":\"News\"\x7d," ++
   "\x7b\"startDateTime\":\"not a time\",\"endDateTime\":\"2024-01-10 20:00:00\",\"Name\":\"Drama\"\x7d," ++
   "\x7b\"startDateTime\":\"2024-01-10 20:00:00\",\"endDateTime\":\"2024-01-10 21:30:00\",\"Name\":\"Film\"\x7d]," ++
   "\"2024-01-11\":[" ++
   "\x7b\"startDateTime\":\"2024-01-11 06:00:00\",\"endDateTime\":\"2024-01-11 07:00:00\",\"Name\":\"Dawn\"\x7d]" ++
   "\x7d\x7d")

/-- What `json.Unmarshal` makes of `docThree`. -/
def respThree : ProgramResponse :=
  { State := 200, Message := "ok", Success := true
    Data := [("2024-01-10",
               [⟨"2024-01-10 18:00:00", "2024-01-10 19:00:00", "News"⟩,
                ⟨"not a time", "2024-01-10 20:00:00", "Drama"⟩,
                ⟨"2024-01-10 20:00:00", "2024-01-10 21:30:00", "Film"⟩]),
             ("2024-01-11",
               [⟨"2024-01-11 06:00:00", "2024-01-11 07:00:00", "Dawn"⟩])] }

/-- A response with three well-formed entries for 2024-01-10. -/
def docDay : Bytes := bytesOf
  ("\x7b\"state\":200,\"message\":\"ok\",\"success\":false,\"Data\":\x7b" ++
   "\"2024-01-10\":[" ++
   "\x7b\"startDateTime\":\"2024-01-10 18:00:00\",\"endDateTime\":\"2024-01-10 19:00:00\",\"Name\":\"News\"\x7d," ++
   "\x7b\"startDateTime\":\"2024-01-10 19:00:00\",\"endDateTime\":\"2024-01-10 20:00:00\",\"Name\":\"Drama\"\x7d," ++
   "\x7b\"startDateTime\":\"2024-01-10 20:00:00\",\"endDateTime\":\"2024-01-10 21:30:00\",\"Name\":\"Film\"\x7d]" ++
   "\x7d\x7d")

/-- What `json.Unmarshal` makes of `docDay`. -/
def respDay : ProgramResponse :=
  { State := 200, Message := "ok", Success := false
    Data := [("2024-01-10",
               [⟨"2024-01-10 18:00:00", "2024-01-10 19:00:00", "News"⟩,
                ⟨"2024-01-10 19:00:00", "2024-01-10 20:00:00", "Drama"⟩,
                ⟨"2024-01-10 20:00:00", "2024-01-10 21:30:00", "Film"⟩])] }

/-- A response whose first entry ends an hour before it starts and whose
second entry ends at the second it starts. -/
def docBackwards : Bytes := bytesOf
  ("\x7b\"state\":200,\"message\":\"ok\",\"success\":true,\"Data\":\x7b" ++
   "\"2024-01-10\":[" ++
   "\x7b\"startDateTime\":\"2024-01-10 20:00:00\",\"endDateTime\":\"2024-01-10 19:00:00\",\"Name\":\"Backwards\"\x7d," ++
   "\x7b\"startDateTime\":\"2024-01-10 21:00:00\",\"endDateTime\":\"2024-01-10 21:00:00\",\"Name\":\"Empty\"\x7d]" ++
   "\x7d\x7d")

/-- What `json.Unmarshal` makes of `docBackwards`. -/
def respBackwards : ProgramResponse :=
  { State := 200, Message := "ok", Success := true
    Data := [("2024-01-10",
               [⟨"2024-01-10 20:00:00", "2024-01-10 19:00:00", "Backwards"⟩,
                ⟨"2024-01-10 21:00:00", "2024-01-10 21:00:00", "Empty"⟩])] }

/-- An upstream rejection that still carries entries. -/
def docQuota : Bytes := bytesOf
  ("\x7b\"state\":403,\"message\":\"quota exceeded\",\"success\":true,\"Data\":\x7b" ++
   "\"2024-01-10\":[" ++
   "\x7b\"startDateTime\":\"2024-01-10 18:00:00\",\"endDateTime\":\"2024-01-10 19:00:00\",\"Name\":\"News\"\x7d]" ++
   "\x7d\x7d")

/-- What `json.Unmarshal` makes of `docQuota`. -/
def respQuota : ProgramResponse :=
  { State := 403, Message := "quota exceeded", Success := true
    Data := [("2024-01-10", [⟨"2024-01-10 18:00:00", "2024-01-10 19:00:00", "News"⟩])] }

/-- A response cut off in the middle. -/
def docTruncated : Bytes := bytesOf "\x7b\"state\":200,\"mess"

/-- The decoder of the examples: `json.Unmarshal` on the documents above, and
the error `encoding/json` reports for input that ends early on anything else. -/
def unmarshal (data : Bytes) : Except Error ProgramResponse :=
  if data = docThree then .ok respThree
  else if data = docDay then .ok respDay
  else if data = docBackwards then .ok respBackwards
  else if data = docQuota then .ok respQuota
  else .error (.lib "unexpected end of JSON input")

/-- The encoder of the examples: the JSON object of a string map whose keys
and values need no escaping. -/
def marshalText (m : List (String × String)) : Bytes :=
  bytesOf ("\x7b" ++ ",".intercalate (m.map (fun kv => "\"" ++ kv.1 ++ "\":\"" ++ kv.2 ++ "\""))
    ++ "\x7d")

/-- The function `time.LoadLocation` with a zone database that knows `Asia/Shanghai`. -/
def loadLocation (name : String) : Except Error Location :=
  if name = "Asia/Shanghai" then .ok shanghai else .error (.lib ("unknown time zone " ++ name))

/-- The function `time.ParseInLocation` on the layout of this file. -/
def parseInLocation (layout value : String) (loc : Location) : Except Error Time :=
  if layout = layoutDateTime then
    match GoTime.parseDateTime value loc with
    | .ok t => .ok t
    | .error e => .error (.timeParse e)
  else .error (.lib "layout outside the model")

/-- The method `Time.Format` on the layout of this file. -/
def format (t : Time) (layout : String) : String :=
  if layout = layoutDate then GoTime.formatDate t else layout

/-- A rendering of error values. -/
def errorString : Error → String
  | .lib text => text
  | .timeParse e => "parsing time " ++ e.Value ++ " as " ++ e.Layout
  | .ProviderParseFailed providerID err => providerID ++ ": parse failed: " ++ errorString err
  | .ProviderAPIError providerID code message => providerID ++ ": api error " ++ code ++ ": " ++ message
  | .ErrProgramLoadLocation channelID err => channelID ++ ": load location: " ++ errorString err
  | .ErrProgramDateRangeProcess err channelID date =>
    channelID ++ " " ++ date ++ ": date range: " ++ errorString err

/-- The environment of the examples: provider `hebei`, source timezone
`zone`, a transport that answers a request body with `respond`, and a clock
that reads `clock`. -/
def env (zone : String) (respond : Bytes → Except Error Bytes) (clock : Time) : Env World :=
  { GetID := "hebei"
    UTC8Location := zone
    HeaderUserAgent := "User-Agent"
    DefaultUserAgent := "Mozilla/5.0"
    Unmarshal := unmarshal
    MarshalText := marshalText
    LoadLocation := loadLocation
    ParseInLocation := parseInLocation
    Format := format
    Now := fun w => (clock, w)
    PostWithHeaders := fun w path body headers =>
      (respond body, { w with sent := w.sent ++ [(path, body, headers)] })
    Warn := fun w msg => { w with log := w.log ++ [msg] }
    ErrorString := errorString }

/-- Noon UTC of 10 January 2024, read in the zone UTC+8. -/
def noon : Time := { unix := 1704888000, nsec := 0, offset := 28800 }

/-- A transport that is down. -/
def down : Bytes → Except Error Bytes := fun _ => .error (.lib "connection refused")

/-- A transport that answers every request with `doc`. -/
def answer (doc : Bytes) : Bytes → Except Error Bytes := fun _ => .ok doc

/-- A transport that is down for channel 114 only. -/
def downFor114 : Bytes → Except Error Bytes := fun body =>
  if body = marshalText (reqBody "2024-01-10" "114") then .error (.lib "connection refused")
  else .ok docDay

/-- The Programs of `docDay` under the canonical channel id `channelID`. -/
def dayPrograms (channelID : String) : List Program :=
  [ { ChannelID := channelID, Title := "News",
      StartTime := ⟨1704880800, 0, 28800⟩, EndTime := ⟨1704884400, 0, 28800⟩,
      OriginalTimezone := "Asia/Shanghai", ProviderID := "hebei" },
    { ChannelID := channelID, Title := "Drama",
      StartTime := ⟨1704884400, 0, 28800⟩, EndTime := ⟨1704888000, 0, 28800⟩,
      OriginalTimezone := "Asia/Shanghai", ProviderID := "hebei" },
    { ChannelID := channelID, Title := "Film",
      StartTime := ⟨1704888000, 0, 28800⟩, EndTime := ⟨1704893400, 0, 28800⟩,
      OriginalTimezone := "Asia/Shanghai", ProviderID := "hebei" } ]

/-- The Programs of `docBackwards` under the canonical channel id `hebei-tv`. -/
def backwardsPrograms : List Program :=
  [ { ChannelID := "hebei-tv", Title := "Backwards",
      StartTime := ⟨1704888000, 0, 28800⟩, EndTime := ⟨1704884400, 0, 28800⟩,
      OriginalTimezone := "Asia/Shanghai", ProviderID := "hebei" },
    { ChannelID := "hebei-tv", Title := "Empty",
      StartTime := ⟨1704891600, 0, 28800⟩, EndTime := ⟨1704891600, 0, 28800⟩,
      OriginalTimezone := "Asia/Shanghai", ProviderID := "hebei" } ]

/-- The request `FetchEPG` sends for a provider-local channel id on
10 January 2024. -/
def request (providerChannelID : String) : String × Bytes × List (String × String) :=
  ("/spidercrms/api/live/liveShowSet/findNoPage",
   marshalText [("day", "2024-01-10"), ("dayEnd", "2024-01-10"),
     ("sourceId", providerChannelID), ("tenantId", "0d91d6cfb98f5b206ac1e752757fc5a9")],
   [("User-Agent", "Mozilla/5.0"), ("Tenantid", "0d91d6cfb98f5b206ac1e752757fc5a9")])

/-- The environment with a resolvable timezone and a transport that is down. -/
def offline : Env World := env "Asia/Shanghai" down noon

end Sample

/-! ## Lemmas shared by the theorems -/

/-- The loop appends, to what it was given, the Programs of the entries that
parse, in order. -/
theorem parseLoop_fst {σ : Type} (env : Env σ) (loc : Location) (channelID date : String)
    (es : List Entry) (acc : List Program) (w : σ) :
    (parseLoop env loc channelID date es acc w).1
      = acc ++ es.filterMap (entryProgram env loc channelID) := by
  induction es generalizing acc w with
  | nil => simp [parseLoop]
  | cons e rest ih =>
    unfold parseLoop
    cases hs : env.ParseInLocation layoutDateTime e.StartDateTime loc with
    | error err => simp [entryProgram, hs, ih]
    | ok s =>
      cases ht : env.ParseInLocation layoutDateTime e.EndDateTime loc with
      | error err => simp [entryProgram, hs, ht, ih]
      | ok t => simp [entryProgram, hs, ht, ih]

/-- With a decodable response, state 200 and a resolvable timezone,
`ParseEPGResponse` is the loop over the bucket of the requested date. -/
theorem ParseEPGResponse_ok {σ : Type} (env : Env σ) (w : σ) (data : Bytes)
    (providerChannelID channelID date : String) (resp : ProgramResponse) (loc : Location)
    (hd : env.Unmarshal data = .ok resp) (hs : resp.State = 200)
    (hl : env.LoadLocation env.UTC8Location = .ok loc) :
    ParseEPGResponse env w data providerChannelID channelID date
      = ((some (parseLoop env loc channelID date (mapIndex resp.Data date) [] w).1, none),
         (parseLoop env loc channelID date (mapIndex resp.Data date) [] w).2) := by
  simp [ParseEPGResponse, hd, hs, hl]

/-- The pair `ParseEPGResponse` returns is either a list with a nil error or
a nil list with an error. -/
theorem ParseEPGResponse_shape {σ : Type} (env : Env σ) (w : σ) (data : Bytes)
    (providerChannelID channelID date : String) :
    (∃ l, (ParseEPGResponse env w data providerChannelID channelID date).1 = (some l, none)) ∨
    (∃ e, (ParseEPGResponse env w data providerChannelID channelID date).1 = (none, some e)) := by
  unfold ParseEPGResponse
  cases hd : env.Unmarshal data with
  | error err => exact Or.inr ⟨_, rfl⟩
  | ok resp =>
    by_cases hs : resp.State = 200
    · cases hl : env.LoadLocation env.UTC8Location with
      | error err => simp [hs]
      | ok loc => simp [hs]
    · simp [hs]

/-- The only effects of the loop are warnings, at most one per entry. -/
theorem parseLoop_snd {σ : Type} (env : Env σ) (loc : Location) (channelID date : String)
    (es : List Entry) (acc : List Program) (w : σ) :
    ∃ msgs : List String, msgs.length ≤ es.length ∧
      (parseLoop env loc channelID date es acc w).2 = msgs.foldl env.Warn w := by
  induction es generalizing acc w with
  | nil => exact ⟨[], Nat.le_refl _, rfl⟩
  | cons e rest ih =>
    unfold parseLoop
    cases hs : env.ParseInLocation layoutDateTime e.StartDateTime loc with
    | error err =>
      obtain ⟨msgs, hlen, hw⟩ := ih acc
        (env.Warn w (env.ErrorString (.ErrProgramDateRangeProcess err channelID date)))
      exact ⟨_ :: msgs, by simpa using hlen, by simpa using hw⟩
    | ok s =>
      cases ht : env.ParseInLocation layoutDateTime e.EndDateTime loc with
      | error err =>
        obtain ⟨msgs, hlen, hw⟩ := ih acc
          (env.Warn w (env.ErrorString (.ErrProgramDateRangeProcess err channelID date)))
        exact ⟨_ :: msgs, by simpa using hlen, by simpa using hw⟩
      | ok t =>
        obtain ⟨msgs, hlen, hw⟩ := ih
          (acc ++ [{ ChannelID := channelID, Title := e.Name, StartTime := s, EndTime := t,
                     OriginalTimezone := env.UTC8Location, ProviderID := env.GetID }]) w
        exact ⟨msgs, Nat.le_succ_of_le hlen, by simpa using hw⟩

/-- The only effects of `ParseEPGResponse` are warnings. -/
theorem ParseEPGResponse_world {σ : Type} (env : Env σ) (w : σ) (data : Bytes)
    (providerChannelID channelID date : String) :
    ∃ msgs : List String,
      (ParseEPGResponse env w data providerChannelID channelID date).2
        = msgs.foldl env.Warn w := by
  unfold ParseEPGResponse
  cases hd : env.Unmarshal data with
  | error err => exact ⟨[], rfl⟩
  | ok resp =>
    by_cases hs : resp.State = 200
    · cases hl : env.LoadLocation env.UTC8Location with
      | error err =>
        exact ⟨[env.ErrorString (.ErrProgramLoadLocation channelID err)], by simp [hs]⟩
      | ok loc =>
        obtain ⟨msgs, _, hw⟩ :=
          parseLoop_snd env loc channelID date (mapIndex resp.Data date) [] w
        exact ⟨msgs, by simpa [hs] using hw⟩
    · exact ⟨[], by simp [hs]⟩

/-- A key that no pair of an association list carries is not found. -/
theorem lookup_none_of_no_key {α : Type} (m : List (String × α)) (k : String)
    (h : ∀ kv ∈ m, kv.1 ≠ k) : m.lookup k = none := by
  induction m with
  | nil => rfl
  | cons kv rest ih =>
    obtain ⟨a, b⟩ := kv
    have hne : a ≠ k := h (a, b) (List.mem_cons_self _ _)
    have hrest : ∀ kv ∈ rest, kv.1 ≠ k := fun kv hkv => h kv (List.mem_cons_of_mem _ hkv)
    have hb : (k == a) = false := by
      simp only [beq_eq_false_iff_ne, ne_eq]
      exact fun hka => hne hka.symm
    simp [List.lookup, hb, ih hrest]

/-- When every element is kept, `filterMap` keeps the length and the
positions. -/
theorem filterMap_all_some {α β : Type} (g : α → Option β) (es : List α)
    (h : ∀ e ∈ es, ∃ p, g e = some p) :
    (es.filterMap g).length = es.length ∧
    ∀ (i : Nat) (e : α), es[i]? = some e → ∃ p, (es.filterMap g)[i]? = some p ∧ g e = some p := by
  induction es with
  | nil => simp
  | cons a rest ih =>
    obtain ⟨p, hp⟩ := h a (List.mem_cons_self _ _)
    have hrest := ih (fun e he => h e (List.mem_cons_of_mem _ he))
    refine ⟨by simp [List.filterMap_cons, hp, hrest.1], ?_⟩
    intro i e hie
    cases i with
    | zero =>
      simp only [List.getElem?_cons_zero, Option.some.injEq] at hie
      subst hie
      exact ⟨p, by simp [List.filterMap_cons, hp], hp⟩
    | succ j =>
      simp only [List.getElem?_cons_succ] at hie
      obtain ⟨q, hq, hgq⟩ := hrest.2 j e hie
      exact ⟨q, by simp [List.filterMap_cons, hp, hq], hgq⟩

/-- An entry has a Program exactly when both of its timestamps parse. -/
theorem entryProgram_isSome_iff {σ : Type} (env : Env σ) (loc : Location) (channelID : String)
    (e : Entry) : (entryProgram env loc channelID e).isSome ↔ entryParses env loc e := by
  unfold entryProgram entryParses
  cases hs : env.ParseInLocation layoutDateTime e.StartDateTime loc <;>
    cases ht : env.ParseInLocation layoutDateTime e.EndDateTime loc <;> simp

/-- The fields of the Program of an entry. -/
theorem entryProgram_fields {σ : Type} (env : Env σ) (loc : Location) (channelID : String)
    (e : Entry) (p : Program) (h : entryProgram env loc channelID e = some p) :
    p.Title = e.Name ∧ p.ChannelID = channelID ∧ p.ProviderID = env.GetID ∧
    p.OriginalTimezone = env.UTC8Location ∧
    env.ParseInLocation layoutDateTime e.StartDateTime loc = .ok p.StartTime ∧
    env.ParseInLocation layoutDateTime e.EndDateTime loc = .ok p.EndTime := by
  unfold entryProgram at h
  cases hs : env.ParseInLocation layoutDateTime e.StartDateTime loc with
  | error err => simp [hs] at h
  | ok s =>
    cases ht : env.ParseInLocation layoutDateTime e.EndDateTime loc with
    | error err => simp [hs, ht] at h
    | ok t =>
      simp only [hs, ht, Option.some.injEq] at h
      subst h
      simp

/-- After a POST that returned bytes, `FetchEPG` hands back what
`ParseEPGResponse` returns. -/
theorem FetchEPG_of_post {σ : Type} (env : Env σ) (w : σ) (providerChannelID channelID : String)
    (date : Time) :
    FetchEPG env w providerChannelID channelID date
      = match env.PostWithHeaders w findNoPagePath
            (env.MarshalText (reqBody (env.Format date layoutDate) providerChannelID))
            (requestHeaders env) with
        | (.error err, w1) => ((none, some err), w1)
        | (.ok res, w1) =>
          ParseEPGResponse env w1 res providerChannelID channelID (env.Format date layoutDate) := by
  unfold FetchEPG jsonMarshal
  simp only []
  rcases hp : env.PostWithHeaders w findNoPagePath
      (env.MarshalText (reqBody (env.Format date layoutDate) providerChannelID))
      (requestHeaders env) with ⟨r, w1⟩
  cases r with
  | error err => rfl
  | ok res =>
    simp only []
    rcases hr : ParseEPGResponse env w1 res providerChannelID channelID
        (env.Format date layoutDate) with ⟨⟨l, e⟩, w2⟩
    rcases ParseEPGResponse_shape env w1 res providerChannelID channelID
        (env.Format date layoutDate) with ⟨l0, h0⟩ | ⟨e0, h0⟩
    · rw [hr] at h0
      simp only [Prod.mk.injEq] at h0
      obtain ⟨h1, h2⟩ := h0
      subst h1 h2
      rfl
    · rw [hr] at h0
      simp only [Prod.mk.injEq] at h0
      obtain ⟨h1, h2⟩ := h0
      subst h1 h2
      rfl

/-- With a decodable response, state 200 and a resolvable timezone, the pair
returned is the list of the Programs of the parsable entries and a nil error. -/
theorem ParseEPGResponse_fst {σ : Type} (env : Env σ) (w : σ)
    (data : Bytes) (providerChannelID channelID date : String) (resp : ProgramResponse)
    (loc : Location)
    (hd : env.Unmarshal data = .ok resp) (hs : resp.State = 200)
    (hl : env.LoadLocation env.UTC8Location = .ok loc) :
    (ParseEPGResponse env w data providerChannelID channelID date).1
      = (some ((mapIndex resp.Data date).filterMap (entryProgram env loc channelID)), none) := by
  rw [ParseEPGResponse_ok env w data providerChannelID channelID date resp loc hd hs hl]
  simp [parseLoop_fst]

/-- The batch loop adds, to the programs it was given, the programs of every
successful run, in the order of the mapping list, and leaves the world that
one run per mapping entry leaves. -/
theorem batchLoop_eq {σ : Type} (env : Env σ) (date : Time)
    (ms : List ChannelMappingInfo) (acc : List Program) (w : σ) :
    BaseProvider.batchLoop env (FetchEPG env) date ms acc w
      = (acc ++ ((batchRuns env date ms w).map succeededPrograms).flatten,
         ms.foldl (fun w m =>
           afterRun env m (FetchEPG env w m.ProviderChannelID m.ChannelID date)) w) := by
  induction ms generalizing acc w with
  | nil => simp [BaseProvider.batchLoop, batchRuns]
  | cons m rest ih =>
    unfold BaseProvider.batchLoop batchRuns
    rcases hr : FetchEPG env w m.ProviderChannelID m.ChannelID date with ⟨⟨l, e⟩, w1⟩
    cases e with
    | none => simp [ih, succeededPrograms, afterRun, hr]
    | some err => simp [ih, succeededPrograms, afterRun, hr]

/-- One run per mapping entry. -/
theorem batchRuns_length {σ : Type} (env : Env σ) (date : Time)
    (ms : List ChannelMappingInfo) (w : σ) : (batchRuns env date ms w).length = ms.length := by
  induction ms generalizing w with
  | nil => rfl
  | cons m rest ih => simp [batchRuns, ih]

/-! ## The claims -/

/-- C1: for a response that decodes, has state 200 (whatever its success flag
and message) and a resolvable source timezone, `ParseEPGResponse` returns a nil
error and exactly the Programs of the entries under the requested date whose
start and end both parse, one per such entry, in the upstream order; an entry
is left out exactly when its start or its end does not parse. -/
theorem C1_parse_keeps_exactly_the_parsable_entries {σ : Type} (env : Env σ) (w : σ)
    (data : Bytes) (providerChannelID channelID date : String) (resp : ProgramResponse)
    (loc : Location)
    (hd : env.Unmarshal data = .ok resp) (hs : resp.State = 200)
    (hl : env.LoadLocation env.UTC8Location = .ok loc) :
    (ParseEPGResponse env w data providerChannelID channelID date).1
      = (some ((mapIndex resp.Data date).filterMap (entryProgram env loc channelID)), none) ∧
    ∀ e, (entryProgram env loc channelID e).isSome ↔ entryParses env loc e := by
  exact ⟨ParseEPGResponse_fst env w data providerChannelID channelID date resp loc hd hs hl,
    entryProgram_isSome_iff env loc channelID⟩

/-- C1, worked: three entries, the second with an unparsable start, give the
Programs of the first and the third. -/
theorem C1_three_entries_second_unparsable :
    Sample.offline.Unmarshal Sample.docThree = .ok Sample.respThree ∧
    Sample.respThree.State = 200 ∧
    Sample.offline.LoadLocation Sample.offline.UTC8Location = .ok Sample.shanghai ∧
    (ParseEPGResponse Sample.offline Sample.w0 Sample.docThree "462" "hebei-tv" "2024-01-10").1
      = (some [ { ChannelID := "hebei-tv", Title := "News",
                  StartTime := ⟨1704880800, 0, 28800⟩, EndTime := ⟨1704884400, 0, 28800⟩,
                  OriginalTimezone := "Asia/Shanghai", ProviderID := "hebei" },
                { ChannelID := "hebei-tv", Title := "Film",
                  StartTime := ⟨1704888000, 0, 28800⟩, EndTime := ⟨1704893400, 0, 28800⟩,
                  OriginalTimezone := "Asia/Shanghai", ProviderID := "hebei" } ], none) :=
  ⟨by decide, by decide, rfl,
   (C1_parse_keeps_exactly_the_parsable_entries Sample.offline Sample.w0 Sample.docThree
      "462" "hebei-tv" "2024-01-10" Sample.respThree Sample.shanghai
      (by decide) (by decide) rfl).1.trans (by decide)⟩

/-- C2: for a response with state 200 whose entries under the requested date
all parse, `ParseEPGResponse` returns as many Programs as there are entries,
and the i-th Program has the i-th entry's name as Title, the canonical
channel id as ChannelID, the provider's id as ProviderID and the provider's
source timezone identifier as OriginalTimezone; the provider-local channel id
has no influence on what is returned. -/
theorem C2_well_formed_day_fields {σ : Type} (env : Env σ) (w : σ)
    (data : Bytes) (providerChannelID channelID date : String) (resp : ProgramResponse)
    (loc : Location)
    (hd : env.Unmarshal data = .ok resp) (hs : resp.State = 200)
    (hl : env.LoadLocation env.UTC8Location = .ok loc)
    (hall : ∀ e ∈ mapIndex resp.Data date, entryParses env loc e) :
    (∃ l, (ParseEPGResponse env w data providerChannelID channelID date).1 = (some l, none) ∧
      l.length = (mapIndex resp.Data date).length ∧
      ∀ (i : Nat) (e : Entry), (mapIndex resp.Data date)[i]? = some e →
        ∃ p, l[i]? = some p ∧ p.Title = e.Name ∧ p.ChannelID = channelID ∧
          p.ProviderID = env.GetID ∧ p.OriginalTimezone = env.UTC8Location) ∧
    ∀ other : String, ParseEPGResponse env w data other channelID date
      = ParseEPGResponse env w data providerChannelID channelID date := by
  refine ⟨?_, fun other => rfl⟩
  have hsome : ∀ e ∈ mapIndex resp.Data date, ∃ p, entryProgram env loc channelID e = some p := by
    intro e he
    exact Option.isSome_iff_exists.mp ((entryProgram_isSome_iff env loc channelID e).mpr (hall e he))
  obtain ⟨hlen, hidx⟩ := filterMap_all_some (entryProgram env loc channelID) _ hsome
  refine ⟨_, (ParseEPGResponse_fst env w data providerChannelID channelID date resp loc hd hs hl), hlen, ?_⟩
  intro i e hie
  obtain ⟨p, hp, hg⟩ := hidx i e hie
  obtain ⟨h1, h2, h3, h4, _, _⟩ := entryProgram_fields env loc channelID e p hg
  exact ⟨p, hp, h1, h2, h3, h4⟩

/-- C2, worked: a day of three well-formed entries. -/
theorem C2_three_valid_entries :
    (∀ e ∈ mapIndex Sample.respDay.Data "2024-01-10",
      entryParses Sample.offline Sample.shanghai e) ∧
    ((∃ l, (ParseEPGResponse Sample.offline Sample.w0 Sample.docDay "462" "hebei-tv"
          "2024-01-10").1 = (some l, none) ∧
      l.length = (mapIndex Sample.respDay.Data "2024-01-10").length ∧
      ∀ (i : Nat) (e : Entry), (mapIndex Sample.respDay.Data "2024-01-10")[i]? = some e →
        ∃ p, l[i]? = some p ∧ p.Title = e.Name ∧ p.ChannelID = "hebei-tv" ∧
          p.ProviderID = Sample.offline.GetID ∧
          p.OriginalTimezone = Sample.offline.UTC8Location) ∧
    ∀ other : String, ParseEPGResponse Sample.offline Sample.w0 Sample.docDay other "hebei-tv"
        "2024-01-10"
      = ParseEPGResponse Sample.offline Sample.w0 Sample.docDay "462" "hebei-tv" "2024-01-10") :=
  have hall : ∀ e ∈ mapIndex Sample.respDay.Data "2024-01-10",
      entryParses Sample.offline Sample.shanghai e := fun e he =>
    (entryProgram_isSome_iff Sample.offline Sample.shanghai "hebei-tv" e).mp
      ((by decide : ∀ e ∈ mapIndex Sample.respDay.Data "2024-01-10",
          (entryProgram Sample.offline Sample.shanghai "hebei-tv" e).isSome = true) e he)
  ⟨hall, C2_well_formed_day_fields Sample.offline Sample.w0 Sample.docDay "462" "hebei-tv"
    "2024-01-10" Sample.respDay Sample.shanghai (by decide) (by decide) rfl hall⟩

/-- C3, refuted as stated: a response whose first entry ends an hour before it
starts and whose second entry ends at the second it starts is returned as two
Programs, neither of which has its StartTime before its EndTime. -/
theorem C3_end_not_after_start_is_returned :
    (ParseEPGResponse Sample.offline Sample.w0 Sample.docBackwards "462" "hebei-tv"
        "2024-01-10").1
      = (some [ { ChannelID := "hebei-tv", Title := "Backwards",
                  StartTime := ⟨1704888000, 0, 28800⟩, EndTime := ⟨1704884400, 0, 28800⟩,
                  OriginalTimezone := "Asia/Shanghai", ProviderID := "hebei" },
                { ChannelID := "hebei-tv", Title := "Empty",
                  StartTime := ⟨1704891600, 0, 28800⟩, EndTime := ⟨1704891600, 0, 28800⟩,
                  OriginalTimezone := "Asia/Shanghai", ProviderID := "hebei" } ], none) ∧
    ¬ (∀ p ∈ ((ParseEPGResponse Sample.offline Sample.w0 Sample.docBackwards "462" "hebei-tv"
        "2024-01-10").1.1.getD []), p.StartTime.Before p.EndTime) := by
  decide

/-- C3, amended: when `ParseEPGResponse` returns a list, every Program in it
has as StartTime and EndTime the instants parsed from the start and the end
of one entry under the requested date, and every entry under that date whose
two timestamps parse is returned as a Program with exactly those instants,
whatever their order: the two are never compared.  So the Programs all
satisfy StartTime < EndTime exactly when every such entry's parsed start is
before its parsed end. -/
theorem C3_parsable_entries_are_returned_whatever_their_order {σ : Type} (env : Env σ)
    (w : σ) (data : Bytes) (providerChannelID channelID date : String) (l : List Program)
    (hres : (ParseEPGResponse env w data providerChannelID channelID date).1.1 = some l) :
    ∃ resp loc, env.Unmarshal data = .ok resp ∧
      env.LoadLocation env.UTC8Location = .ok loc ∧
      (∀ p ∈ l, ∃ e ∈ mapIndex resp.Data date,
        env.ParseInLocation layoutDateTime e.StartDateTime loc = .ok p.StartTime ∧
        env.ParseInLocation layoutDateTime e.EndDateTime loc = .ok p.EndTime) ∧
      (∀ e ∈ mapIndex resp.Data date, ∀ s t,
        env.ParseInLocation layoutDateTime e.StartDateTime loc = .ok s →
        env.ParseInLocation layoutDateTime e.EndDateTime loc = .ok t →
        ∃ p ∈ l, p.Title = e.Name ∧ p.StartTime = s ∧ p.EndTime = t) ∧
      ((∀ p ∈ l, p.StartTime.Before p.EndTime) ↔
        ∀ e ∈ mapIndex resp.Data date, ∀ s t,
          env.ParseInLocation layoutDateTime e.StartDateTime loc = .ok s →
          env.ParseInLocation layoutDateTime e.EndDateTime loc = .ok t → s.Before t) := by
  cases hd : env.Unmarshal data with
  | error err => simp [ParseEPGResponse, hd] at hres
  | ok resp =>
    by_cases hs : resp.State = 200
    · cases hl : env.LoadLocation env.UTC8Location with
      | error err => simp [ParseEPGResponse, hd, hs, hl] at hres
      | ok loc =>
        rw [ParseEPGResponse_fst env w data providerChannelID channelID date resp loc hd hs hl]
          at hres
        simp only [Option.some.injEq] at hres
        subst hres
        have hsound : ∀ p ∈ (mapIndex resp.Data date).filterMap (entryProgram env loc channelID),
            ∃ e ∈ mapIndex resp.Data date,
              env.ParseInLocation layoutDateTime e.StartDateTime loc = .ok p.StartTime ∧
              env.ParseInLocation layoutDateTime e.EndDateTime loc = .ok p.EndTime := by
          intro p hp
          obtain ⟨e, he, hpe⟩ := List.mem_filterMap.mp hp
          obtain ⟨_, _, _, _, hst, hen⟩ := entryProgram_fields env loc channelID e p hpe
          exact ⟨e, he, hst, hen⟩
        have hcomplete : ∀ e ∈ mapIndex resp.Data date, ∀ s t,
            env.ParseInLocation layoutDateTime e.StartDateTime loc = .ok s →
            env.ParseInLocation layoutDateTime e.EndDateTime loc = .ok t →
            ∃ p ∈ (mapIndex resp.Data date).filterMap (entryProgram env loc channelID),
              p.Title = e.Name ∧ p.StartTime = s ∧ p.EndTime = t := by
          intro e he s t hst hen
          refine ⟨{ ChannelID := channelID, Title := e.Name, StartTime := s, EndTime := t,
                    OriginalTimezone := env.UTC8Location, ProviderID := env.GetID },
                  List.mem_filterMap.mpr ⟨e, he, ?_⟩, rfl, rfl, rfl⟩
          simp [entryProgram, hst, hen]
        refine ⟨resp, loc, rfl, rfl, hsound, hcomplete, ?_⟩
        constructor
        · intro hall e he s t hst hen
          obtain ⟨p, hp, _, hps, hpt⟩ := hcomplete e he s t hst hen
          have hb := hall p hp
          rw [hps, hpt] at hb
          exact hb
        · intro hall p hp
          obtain ⟨e, he, hst, hen⟩ := hsound p hp
          exact hall e he _ _ hst hen
    · simp [ParseEPGResponse, hd, hs] at hres

/-- C3 amended, worked: the two entries of `docBackwards`, one ending before
it starts and one ending when it starts, are both returned with their parsed
instants. -/
theorem C3_backwards_entries_are_returned :
    ∃ resp loc, Sample.offline.Unmarshal Sample.docBackwards = .ok resp ∧
      Sample.offline.LoadLocation Sample.offline.UTC8Location = .ok loc ∧
      (∀ p ∈ Sample.backwardsPrograms, ∃ e ∈ mapIndex resp.Data "2024-01-10",
        Sample.offline.ParseInLocation layoutDateTime e.StartDateTime loc = .ok p.StartTime ∧
        Sample.offline.ParseInLocation layoutDateTime e.EndDateTime loc = .ok p.EndTime) ∧
      (∀ e ∈ mapIndex resp.Data "2024-01-10", ∀ s t,
        Sample.offline.ParseInLocation layoutDateTime e.StartDateTime loc = .ok s →
        Sample.offline.ParseInLocation layoutDateTime e.EndDateTime loc = .ok t →
        ∃ p ∈ Sample.backwardsPrograms, p.Title = e.Name ∧ p.StartTime = s ∧ p.EndTime = t) ∧
      ((∀ p ∈ Sample.backwardsPrograms, p.StartTime.Before p.EndTime) ↔
        ∀ e ∈ mapIndex resp.Data "2024-01-10", ∀ s t,
          Sample.offline.ParseInLocation layoutDateTime e.StartDateTime loc = .ok s →
          Sample.offline.ParseInLocation layoutDateTime e.EndDateTime loc = .ok t →
          s.Before t) :=
  C3_parsable_entries_are_returned_whatever_their_order Sample.offline Sample.w0
    Sample.docBackwards "462" "hebei-tv" "2024-01-10" Sample.backwardsPrograms (by decide)

/-- C4: for a decodable response whose state is not 200, whatever its success
flag and its data, `ParseEPGResponse` returns a nil list and the
ProviderAPIError built from the provider id, the state in decimal and the
upstream message; the world is left as it was, no entry is parsed or logged. -/
theorem C4_state_not_200_is_api_error {σ : Type} (env : Env σ) (w : σ)
    (data : Bytes) (providerChannelID channelID date : String) (resp : ProgramResponse)
    (hd : env.Unmarshal data = .ok resp) (hs : resp.State ≠ 200) :
    ParseEPGResponse env w data providerChannelID channelID date
      = ((none, some (.ProviderAPIError env.GetID (sprintfD resp.State) resp.Message)), w) := by
  simp [ParseEPGResponse, hd, hs]

/-- C4, worked: state 403 with message "quota exceeded". -/
theorem C4_quota_exceeded :
    Sample.offline.Unmarshal Sample.docQuota = .ok Sample.respQuota ∧
    Sample.respQuota.State ≠ 200 ∧
    ParseEPGResponse Sample.offline Sample.w0 Sample.docQuota "462" "hebei-tv" "2024-01-10"
      = ((none, some (.ProviderAPIError "hebei" "403" "quota exceeded")), Sample.w0) :=
  ⟨by decide, by decide,
   (C4_state_not_200_is_api_error Sample.offline Sample.w0 Sample.docQuota "462" "hebei-tv"
      "2024-01-10" Sample.respQuota (by decide) (by decide)).trans (by decide)⟩

/-- C5: for bytes that fail to decode, `ParseEPGResponse` returns a nil list
and the ParseFailed error that carries the provider's id and the decode
error, in every environment (whatever the timezone lookup would give) and
without touching the world. -/
theorem C5_decode_failure_is_parse_failed {σ : Type} (env : Env σ) (w : σ)
    (data : Bytes) (providerChannelID channelID date : String) (err : Error)
    (hd : env.Unmarshal data = .error err) :
    ParseEPGResponse env w data providerChannelID channelID date
      = ((none, some (.ProviderParseFailed env.GetID err)), w) := by
  simp [ParseEPGResponse, hd]

/-- C5, worked: a truncated document, in an environment whose timezone does
not resolve either. -/
theorem C5_truncated_document :
    (Sample.env "Asia/Nowhere" Sample.down Sample.noon).Unmarshal Sample.docTruncated
      = .error (.lib "unexpected end of JSON input") ∧
    ParseEPGResponse (Sample.env "Asia/Nowhere" Sample.down Sample.noon) Sample.w0
        Sample.docTruncated "462" "hebei-tv" "2024-01-10"
      = ((none, some (.ProviderParseFailed "hebei" (.lib "unexpected end of JSON input"))),
         Sample.w0) :=
  ⟨by decide,
   C5_decode_failure_is_parse_failed (Sample.env "Asia/Nowhere" Sample.down Sample.noon)
     Sample.w0 Sample.docTruncated "462" "hebei-tv" "2024-01-10"
     (.lib "unexpected end of JSON input") (by decide)⟩

/-- C6: for a decodable response with state 200 and a resolvable timezone
whose data map has no key equal to the requested date, or has that key with
an empty list, `ParseEPGResponse` returns an empty, non-nil list and a nil
error, whatever the map holds under other keys. -/
theorem C6_no_entries_for_the_date {σ : Type} (env : Env σ) (w : σ)
    (data : Bytes) (providerChannelID channelID date : String) (resp : ProgramResponse)
    (loc : Location)
    (hd : env.Unmarshal data = .ok resp) (hs : resp.State = 200)
    (hl : env.LoadLocation env.UTC8Location = .ok loc)
    (hk : (∀ kv ∈ resp.Data, kv.1 ≠ date) ∨ resp.Data.lookup date = some []) :
    ParseEPGResponse env w data providerChannelID channelID date = ((some [], none), w) := by
  have hb : mapIndex resp.Data date = [] := by
    rcases hk with hk | hk
    · simp [mapIndex, lookup_none_of_no_key resp.Data date hk]
    · simp [mapIndex, hk]
  rw [ParseEPGResponse_ok env w data providerChannelID channelID date resp loc hd hs hl, hb]
  rfl

/-- C6, worked: the requested date is not a key of the data map, which holds
entries under two other dates. -/
theorem C6_unknown_date_key :
    (∀ kv ∈ Sample.respThree.Data, kv.1 ≠ "2024-01-12") ∧
    ParseEPGResponse Sample.offline Sample.w0 Sample.docThree "462" "hebei-tv" "2024-01-12"
      = ((some [], none), Sample.w0) :=
  ⟨by decide,
   C6_no_entries_for_the_date Sample.offline Sample.w0 Sample.docThree "462" "hebei-tv"
     "2024-01-12" Sample.respThree Sample.shanghai (by decide) (by decide) rfl
     (Or.inl (by decide))⟩

/-- C7: for a decodable response with state 200, when the provider's source
timezone identifier does not resolve, `ParseEPGResponse` returns a nil list
and the error of the timezone lookup; the only effect is one warning about
the lookup, no entry is parsed or skipped. -/
theorem C7_unresolvable_timezone_is_fatal {σ : Type} (env : Env σ) (w : σ)
    (data : Bytes) (providerChannelID channelID date : String) (resp : ProgramResponse)
    (err : Error)
    (hd : env.Unmarshal data = .ok resp) (hs : resp.State = 200)
    (hl : env.LoadLocation env.UTC8Location = .error err) :
    ParseEPGResponse env w data providerChannelID channelID date
      = ((none, some err),
         env.Warn w (env.ErrorString (.ErrProgramLoadLocation channelID err))) := by
  simp [ParseEPGResponse, hd, hs, hl]

/-- C7, worked: a well-formed day under a timezone name that does not resolve. -/
theorem C7_unknown_zone_name :
    (Sample.env "Asia/Nowhere" Sample.down Sample.noon).Unmarshal Sample.docDay
      = .ok Sample.respDay ∧
    ParseEPGResponse (Sample.env "Asia/Nowhere" Sample.down Sample.noon) Sample.w0
        Sample.docDay "462" "hebei-tv" "2024-01-10"
      = ((none, some (.lib "unknown time zone Asia/Nowhere")),
         { sent := [], log := ["hebei-tv: load location: unknown time zone Asia/Nowhere"] }) :=
  ⟨by decide,
   (C7_unresolvable_timezone_is_fatal (Sample.env "Asia/Nowhere" Sample.down Sample.noon)
     Sample.w0 Sample.docDay "462" "hebei-tv" "2024-01-10" Sample.respDay
     (.lib "unknown time zone Asia/Nowhere") (by decide) (by decide) rfl).trans (by decide)⟩

/-- C8: `HealthCheck` always returns a verdict (the index into the static
channel list, whose first entry has the provider-local id "462", is in range);
it takes the clock once and runs one `FetchEPG` for that channel; the verdict
is healthy with message "OK" exactly when that fetch returned a nil error,
and otherwise unhealthy with the non-empty message "FetchEPG failed: "
followed by the error. -/
theorem C8_health_check_is_an_error_boundary {σ : Type} (env : Env σ) (w : σ) :
    ∃ h w1, HealthCheck env w = some (h, w1) ∧
      (channelList.head?.map (fun c => c.ID)) = some "462" ∧
      w1 = (FetchEPG env (env.Now w).2 "462" "河北卫视" (env.Now w).1).2 ∧
      ((h.Healthy = true ∧ h.Message = "OK") ↔
        (FetchEPG env (env.Now w).2 "462" "河北卫视" (env.Now w).1).1.2 = none) ∧
      (∀ err, (FetchEPG env (env.Now w).2 "462" "河北卫视" (env.Now w).1).1.2 = some err →
        h.Healthy = false ∧ h.Message = "FetchEPG failed: " ++ env.ErrorString err ∧
        h.Message ≠ "") := by
  have hc : channelList[0]? = some ⟨"河北卫视", "462"⟩ := rfl
  unfold HealthCheck
  simp only [hc]
  rcases hr : FetchEPG env (env.Now w).2 "462" "河北卫视" (env.Now w).1 with ⟨⟨l, e⟩, w2⟩
  cases e with
  | none =>
    refine ⟨⟨true, "OK"⟩, w2, rfl, rfl, rfl, ?_, ?_⟩
    · simp
    · intro err herr
      simp at herr
  | some err0 =>
    refine ⟨⟨false, sprintfFetchFailed env err0⟩, w2, rfl, rfl, rfl, ?_, ?_⟩
    · simp
    · intro err herr
      simp only [Option.some.injEq] at herr
      subst herr
      refine ⟨rfl, rfl, ?_⟩
      intro hempty
      have hlen := congrArg String.length hempty
      simp only [sprintfFetchFailed, String.length_append] at hlen
      have h17 : "FetchEPG failed: ".length = 17 := by decide
      have h0 : "".length = 0 := rfl
      omega

/-- C8, worked: with the transport down the verdict is unhealthy and names
the transport error; nothing is propagated. -/
theorem C8_health_check_with_transport_down :
    ∃ h w1, HealthCheck Sample.offline Sample.w0 = some (h, w1) ∧
      h.Healthy = false ∧ h.Message = "FetchEPG failed: connection refused" ∧ h.Message ≠ "" := by
  obtain ⟨h, w1, heq, _, _, _, hfail⟩ :=
    C8_health_check_is_an_error_boundary Sample.offline Sample.w0
  obtain ⟨h1, h2, h3⟩ := hfail (.lib "connection refused") (by decide)
  exact ⟨h, w1, heq, h1, h2, h3⟩

/-- C9: `FetchEPG` makes one POST to the fixed path, with the fixed headers
and the JSON encoding of day and dayEnd (both the date formatted
"2006-01-02"), sourceId (the provider-local channel id) and tenantId (the
fixed tenant id).  If the transport fails, the result is a nil list and that
error, in the world the POST left; otherwise the result is what
`ParseEPGResponse` returns on the response bytes, the two channel ids and the
same formatted date.  In both cases the world afterwards is the world that
one POST left, plus warnings. -/
theorem C9_fetch_posts_once_then_parses {σ : Type} (env : Env σ) (w : σ)
    (providerChannelID channelID : String) (date : Time) :
    (∀ err w1,
      env.PostWithHeaders w "/spidercrms/api/live/liveShowSet/findNoPage"
        (env.MarshalText [("day", env.Format date "2006-01-02"),
          ("dayEnd", env.Format date "2006-01-02"), ("sourceId", providerChannelID),
          ("tenantId", "0d91d6cfb98f5b206ac1e752757fc5a9")])
        [(env.HeaderUserAgent, env.DefaultUserAgent),
          ("Tenantid", "0d91d6cfb98f5b206ac1e752757fc5a9")] = (.error err, w1) →
      FetchEPG env w providerChannelID channelID date = ((none, some err), w1)) ∧
    (∀ res w1,
      env.PostWithHeaders w "/spidercrms/api/live/liveShowSet/findNoPage"
        (env.MarshalText [("day", env.Format date "2006-01-02"),
          ("dayEnd", env.Format date "2006-01-02"), ("sourceId", providerChannelID),
          ("tenantId", "0d91d6cfb98f5b206ac1e752757fc5a9")])
        [(env.HeaderUserAgent, env.DefaultUserAgent),
          ("Tenantid", "0d91d6cfb98f5b206ac1e752757fc5a9")] = (.ok res, w1) →
      FetchEPG env w providerChannelID channelID date
        = ParseEPGResponse env w1 res providerChannelID channelID
            (env.Format date "2006-01-02")) ∧
    (∃ msgs : List String,
      (FetchEPG env w providerChannelID channelID date).2
        = msgs.foldl env.Warn
            (env.PostWithHeaders w "/spidercrms/api/live/liveShowSet/findNoPage"
              (env.MarshalText [("day", env.Format date "2006-01-02"),
                ("dayEnd", env.Format date "2006-01-02"), ("sourceId", providerChannelID),
                ("tenantId", "0d91d6cfb98f5b206ac1e752757fc5a9")])
              [(env.HeaderUserAgent, env.DefaultUserAgent),
                ("Tenantid", "0d91d6cfb98f5b206ac1e752757fc5a9")]).2) := by
  refine ⟨?_, ?_, ?_⟩
  · intro err w1 h
    rw [FetchEPG_of_post]
    simp only [reqBody, requestHeaders, findNoPagePath, layoutDate, tenantID]
    rw [h]
  · intro res w1 h
    rw [FetchEPG_of_post]
    simp only [reqBody, requestHeaders, findNoPagePath, layoutDate, tenantID]
    rw [h]
  · rw [FetchEPG_of_post]
    simp only [reqBody, requestHeaders, findNoPagePath, layoutDate, tenantID]
    rcases hp : env.PostWithHeaders w "/spidercrms/api/live/liveShowSet/findNoPage"
        (env.MarshalText [("day", env.Format date "2006-01-02"),
          ("dayEnd", env.Format date "2006-01-02"), ("sourceId", providerChannelID),
          ("tenantId", "0d91d6cfb98f5b206ac1e752757fc5a9")])
        [(env.HeaderUserAgent, env.DefaultUserAgent),
          ("Tenantid", "0d91d6cfb98f5b206ac1e752757fc5a9")] with ⟨r, w1⟩
    cases r with
    | error err => exact ⟨[], rfl⟩
    | ok res =>
      exact ParseEPGResponse_world env w1 res providerChannelID channelID
        (env.Format date "2006-01-02")

/-- C9, worked: channel 462 on 10 January 2024, once with the transport down
and once with a transport that answers. -/
theorem C9_fetch_channel_462 :
    FetchEPG Sample.offline Sample.w0 "462" "hebei-tv" Sample.noon
      = ((none, some (.lib "connection refused")),
         { sent := [("/spidercrms/api/live/liveShowSet/findNoPage",
                     Sample.marshalText [("day", "2024-01-10"), ("dayEnd", "2024-01-10"),
                       ("sourceId", "462"), ("tenantId", "0d91d6cfb98f5b206ac1e752757fc5a9")],
                     [("User-Agent", "Mozilla/5.0"),
                      ("Tenantid", "0d91d6cfb98f5b206ac1e752757fc5a9")])],
           log := [] }) ∧
    FetchEPG (Sample.env "Asia/Shanghai" (Sample.answer Sample.docDay) Sample.noon) Sample.w0
        "462" "hebei-tv" Sample.noon
      = ParseEPGResponse (Sample.env "Asia/Shanghai" (Sample.answer Sample.docDay) Sample.noon)
          { sent := [("/spidercrms/api/live/liveShowSet/findNoPage",
                     Sample.marshalText [("day", "2024-01-10"), ("dayEnd", "2024-01-10"),
                       ("sourceId", "462"), ("tenantId", "0d91d6cfb98f5b206ac1e752757fc5a9")],
                     [("User-Agent", "Mozilla/5.0"),
                      ("Tenantid", "0d91d6cfb98f5b206ac1e752757fc5a9")])],
            log := [] }
          Sample.docDay "462" "hebei-tv" "2024-01-10" :=
  ⟨(C9_fetch_posts_once_then_parses Sample.offline Sample.w0 "462" "hebei-tv" Sample.noon).1
      _ _ (by decide),
   (C9_fetch_posts_once_then_parses
      (Sample.env "Asia/Shanghai" (Sample.answer Sample.docDay) Sample.noon) Sample.w0
      "462" "hebei-tv" Sample.noon).2.1 _ _ (by decide)⟩

/-- C10: `FetchEPGBatch` issues one `FetchEPG` per mapping entry, in the order
of the list, and a failed channel does not stop the others: the list returned
is the union of the programs of every run that succeeded, with a nil error,
and the world afterwards is the one that exactly one `FetchEPG` per mapping
entry leaves, each failure followed by its one record. -/
theorem C10_batch_keeps_the_successful_channels {σ : Type} (env : Env σ) (w : σ)
    (channelMappingInfo : List ChannelMappingInfo) (date : Time) :
    (FetchEPGBatch env w channelMappingInfo date).1
      = (some ((batchRuns env date channelMappingInfo w).map succeededPrograms).flatten,
         none) ∧
    (FetchEPGBatch env w channelMappingInfo date).2
      = channelMappingInfo.foldl (fun w m =>
          afterRun env m (FetchEPG env w m.ProviderChannelID m.ChannelID date)) w ∧
    (batchRuns env date channelMappingInfo w).length = channelMappingInfo.length ∧
    (∀ p, p ∈ (FetchEPGBatch env w channelMappingInfo date).1.1.getD [] ↔
      ∃ r ∈ batchRuns env date channelMappingInfo w, r.2 = none ∧ p ∈ r.1.getD []) := by
  have hres : (FetchEPGBatch env w channelMappingInfo date).1
      = (some ((batchRuns env date channelMappingInfo w).map succeededPrograms).flatten,
         none) := by
    simp [FetchEPGBatch, BaseProvider.FetchEPGBatch, batchLoop_eq]
  refine ⟨hres, ?_, batchRuns_length env date channelMappingInfo w, ?_⟩
  · simp [FetchEPGBatch, BaseProvider.FetchEPGBatch, batchLoop_eq]
  · intro p
    rw [hres]
    simp only [Option.getD_some, List.mem_flatten, List.mem_map]
    constructor
    · rintro ⟨l, ⟨r, hr, rfl⟩, hp⟩
      obtain ⟨ps, e⟩ := r
      cases e with
      | none => exact ⟨(ps, none), hr, rfl, hp⟩
      | some err => simp [succeededPrograms] at hp
    · rintro ⟨r, hr, he, hp⟩
      obtain ⟨ps, e⟩ := r
      simp only at he
      subst he
      exact ⟨_, ⟨(ps, none), hr, rfl⟩, hp⟩

/-- C10, worked: three mappings, the transport down for the second channel.
The programs of the first and the third channel are returned with a nil
error; three requests were sent, one per mapping entry, and the failure of
channel 114 was recorded. -/
theorem C10_three_channels_second_down :
    batchRuns (Sample.env "Asia/Shanghai" Sample.downFor114 Sample.noon) Sample.noon
        [⟨"462", "a"⟩, ⟨"114", "b"⟩, ⟨"118", "c"⟩] Sample.w0
      = [(some (Sample.dayPrograms "a"), none),
         (none, some (.lib "connection refused")),
         (some (Sample.dayPrograms "c"), none)] ∧
    FetchEPGBatch (Sample.env "Asia/Shanghai" Sample.downFor114 Sample.noon) Sample.w0
        [⟨"462", "a"⟩, ⟨"114", "b"⟩, ⟨"118", "c"⟩] Sample.noon
      = ((some (Sample.dayPrograms "a" ++ Sample.dayPrograms "c"), none),
         { sent := [Sample.request "462", Sample.request "114", Sample.request "118"],
           log := ["114: connection refused"] }) :=
  ⟨by decide,
   Prod.ext
     ((C10_batch_keeps_the_successful_channels
        (Sample.env "Asia/Shanghai" Sample.downFor114 Sample.noon) Sample.w0
        [⟨"462", "a"⟩, ⟨"114", "b"⟩, ⟨"118", "c"⟩] Sample.noon).1.trans (by decide))
     ((C10_batch_keeps_the_successful_channels
        (Sample.env "Asia/Shanghai" Sample.downFor114 Sample.noon) Sample.w0
        [⟨"462", "a"⟩, ⟨"114", "b"⟩, ⟨"118", "c"⟩] Sample.noon).2.1.trans (by decide))⟩

end Hebei
